import Mathlib

/-!
Shallow embedding of the listing-submission workflow of
src/frontend/src/pages/Profile/components/ListingForm.tsx
(the marketplace frontend). The component pieces modelled here are the
Category Reconciler (handleSubmitNewCategory / postCategory), the
Validator (validateForm, rule section), the field editor (handleChange)
and the submission orchestration (validateForm, submission section).

JavaScript strings are modelled as Lean strings; `s.charAt(0).toUpperCase()`
is modelled with `Char.toUpper` on the first character (they agree on ASCII,
which is all the theorems below rely on); `s.length` is the character count.
A JavaScript Promise object is always truthy, which matters for the image
rule: the source reads `const isValidImg = isValidImageUrl(image)` without
awaiting the async function, so the guard `if (!isValidImg)` tests the
truthiness of a Promise object and can never fire.
-/

namespace ListingForm

/-- Category record, as in the `Category` type of ListingForm.tsx. -/
structure Category where
  category_id : String
  name : String
deriving DecidableEq, Repr

/-- Form draft, as in the `FormData` type of ListingForm.tsx. -/
structure FormData where
  title : String
  price : String
  description : String
  image : String
  owner : String
  categories : List Category
deriving DecidableEq, Repr

/-- User-facing status message, as in the `MessageType` type: color is
"red", "green" or the empty string. -/
structure MessageType where
  message : String
  color : String
deriving DecidableEq, Repr

/-- Result of a JavaScript promise: it either resolves with a value or
rejects with an error (modelled as a string). -/
inductive PromiseResult (α : Type) where
  | resolved (a : α)
  | rejected (e : String)
deriving DecidableEq, Repr

/-- Promise.all over a list of settled promises: resolves when every
element resolved, rejects as soon as one rejected. -/
def promiseAll {α : Type} : List (PromiseResult α) → PromiseResult (List α)
  | [] => .resolved []
  | .resolved a :: rest =>
      match promiseAll rest with
      | .resolved as => .resolved (a :: as)
      | .rejected e => .rejected e
  | .rejected e :: _ => .rejected e

/-- JavaScript whitespace test for the characters the Number conversion
trims (space, tab, newline, carriage return, form feed, vertical tab). -/
def jsIsSpace (c : Char) : Bool :=
  c.toNat = 32 || c.toNat = 9 || c.toNat = 10 || c.toNat = 13 ||
  c.toNat = 12 || c.toNat = 11

/-- Digits of a decimal literal. -/
def isDigitChar (c : Char) : Bool := 48 ≤ c.toNat && c.toNat ≤ 57

/-- Recogniser for an optional exponent part of a decimal literal:
either nothing, or e/E, an optional sign, and at least one digit. -/
def expPart : List Char → Bool
  | [] => true
  | e :: tl =>
      if e = 'e' || e = 'E' then
        let tl2 := match tl with
          | s :: tl3 => if s = '+' || s = '-' then tl3 else s :: tl3
          | [] => []
        tl2.length > 0 && tl2.all isDigitChar
      else false

/-- Recogniser for the unsigned part of a JavaScript decimal number
literal: digits, optionally with a fractional part, or a bare fractional
part, optionally followed by an exponent. -/
def decimalBody (cs : List Char) : Bool :=
  let intPart := cs.takeWhile isDigitChar
  let rest1 := cs.dropWhile isDigitChar
  match rest1 with
  | '.' :: tl =>
      let fracPart := tl.takeWhile isDigitChar
      let rest2 := tl.dropWhile isDigitChar
      (intPart.length + fracPart.length > 0) && expPart rest2
  | _ => intPart.length > 0 && expPart rest1

/-- Recogniser for a radix-prefixed JavaScript integer literal such as
0x1f, 0o17 or 0b101. -/
def radixBody (cs : List Char) : Bool :=
  match cs with
  | '0' :: p :: tl =>
      if p = 'x' || p = 'X' then
        tl.length > 0 && tl.all (fun c => isDigitChar c ||
          (97 ≤ c.toNat && c.toNat ≤ 102) || (65 ≤ c.toNat && c.toNat ≤ 70))
      else if p = 'o' || p = 'O' then
        tl.length > 0 && tl.all (fun c => 48 ≤ c.toNat && c.toNat ≤ 55)
      else if p = 'b' || p = 'B' then
        tl.length > 0 && tl.all (fun c => c = '0' || c = '1')
      else false
  | _ => false

/-- Model of `isNaN(Number(s))` for a JavaScript string s: the trimmed
string converts to NaN exactly when it is non-empty and is neither a
signed decimal literal, a signed Infinity, nor a radix-prefixed integer. -/
def jsNumberIsNaN (s : String) : Bool :=
  let t := (s.data.dropWhile jsIsSpace).reverse.dropWhile jsIsSpace |>.reverse
  match t with
  | [] => false
  | _ =>
      let unsigned := match t with
        | c :: tl => if c = '+' || c = '-' then tl else t
        | [] => t
      let signed := unsigned.length ≠ t.length
      let infinity := unsigned = "Infinity".data
      let ok := infinity || decimalBody unsigned ||
        (!signed && radixBody t)
      !ok

/-- Model of `category.name.charAt(0).toUpperCase() + category.name.slice(1)`:
capitalize the first character. -/
def capitalize (s : String) : String :=
  match s.data with
  | [] => ""
  | c :: cs => String.mk (c.toUpper :: cs)

/-- Category Reconciler filter from handleSubmitNewCategory: the selected
categories whose capitalized name is not equal (by string equality) to the
name of any known category. -/
def newCategories (selected known : List Category) : List Category :=
  selected.filter (fun category =>
    !(known.any (fun c => c.name = capitalize category.name)))

/-- Model of postCategory: whatever the fetch does (resolves, or throws on
a non-ok response or a network error), the try/catch swallows the error
with console.error, so the async function always resolves. -/
def postCategory (fetchOutcome : PromiseResult Unit) : PromiseResult Unit :=
  match fetchOutcome with
  | .resolved _ => .resolved ()
  | .rejected _ => .resolved ()

/-- Outcome of one run of handleSubmitNewCategory: the creation requests
issued and whether the failure modal was shown. -/
structure ReconcilerOutcome where
  requests : List Category
  modalShown : Bool
deriving DecidableEq, Repr

/-- Model of handleSubmitNewCategory. `fetchOutcomes` gives, for each
category posted, what its fetch would do. The modal is shown exactly when
the Promise.all over the postCategory calls rejects. -/
def handleSubmitNewCategory (selected known : List Category)
    (fetchOutcomes : Category → PromiseResult Unit) : ReconcilerOutcome :=
  let newCats := newCategories selected known
  if newCats.length = 0 then
    { requests := [], modalShown := false }
  else
    match promiseAll (newCats.map (fun c => postCategory (fetchOutcomes c))) with
    | .resolved _ => { requests := newCats, modalShown := false }
    | .rejected _ => { requests := newCats, modalShown := true }

/-- Result of the validation rule section of validateForm: either the
first failing rule message, or pass. -/
inductive ValidationResult where
  | fail (msg : String)
  | pass
deriving DecidableEq, Repr

/-- Truthiness of the unawaited Promise returned by isValidImageUrl: a
Promise is an object, and every object is truthy in JavaScript. -/
def isValidImgTruthy : Bool := true

/-- Model of the rule section of validateForm (lines 141-193), evaluated
in source order with early return on the first failing rule. The image
guard tests `!isValidImg` where isValidImg is the unawaited Promise, hence
`!isValidImgTruthy`. -/
def validateRules (fd : FormData) (selectedCategories : List Category) :
    ValidationResult :=
  if fd.title = "" || fd.price = "" || fd.description = "" || fd.image = "" then
    .fail "Please fill in all fields"
  else if selectedCategories.length = 0 then
    .fail "Please select at least one category"
  else if jsNumberIsNaN fd.price then
    .fail "Price must be a number"
  else if !isValidImgTruthy then
    .fail "Image URL is invalid"
  else if fd.description.length < 10 then
    .fail "Description must be at least 10 characters"
  else if fd.description.length > 150 then
    .fail "Description must be less than 150 characters"
  else if fd.title != "" &&
      (match fd.title.data with
       | [] => false
       | c :: _ => c != c.toUpper) then
    .fail "Title must start with a capital letter"
  else if fd.title.length > 20 then
    .fail "Title must be less than 20 characters"
  else
    .pass

/-- Message computed by the then/catch continuation attached to
postListing() / editListing(): green on a resolved success, red on a
resolved failure, and the generic fallback text on a rejection. -/
def submissionMessage (r : PromiseResult (Bool × String)) : MessageType :=
  match r with
  | .resolved (true, m) => { message := m, color := "green" }
  | .resolved (false, m) => { message := m, color := "red" }
  | .rejected _ => { message := "An unexpected error has occurred", color := "red" }

/-- Observable outcome of one full submit attempt (one call of
validateForm): the category creation requests issued, whether the
category-failure modal was shown, whether a listing request was issued,
the status message this attempt set (none when it set nothing), and the
formData object after the attempt. -/
structure AttemptResult where
  categoryRequests : List Category
  modalShown : Bool
  listingSubmitted : Bool
  message : Option MessageType
  finalFormData : FormData

/-- Model of one call of validateForm. It first awaits
handleSubmitNewCategory, then runs the rule section; on a failing rule it
sets the rule message and returns without touching formData; when every
rule passes it assigns formData.categories = selectedCategories and then
calls the collaborator selected by `method`, settling the message from
that collaborator through submissionMessage. When the method/collaborator
pair matches neither branch, nothing further happens. -/
def validateForm (fd : FormData) (selectedCategories known : List Category)
    (fetchOutcomes : Category → PromiseResult Unit)
    (method : String) (hasPostListing hasEditListing : Bool)
    (postResult editResult : PromiseResult (Bool × String)) : AttemptResult :=
  let recon := handleSubmitNewCategory selectedCategories known fetchOutcomes
  match validateRules fd selectedCategories with
  | .fail msg =>
      { categoryRequests := recon.requests
        modalShown := recon.modalShown
        listingSubmitted := false
        message := some { message := msg, color := "red" }
        finalFormData := fd }
  | .pass =>
      let fd2 := { fd with categories := selectedCategories }
      if method = "POST" && hasPostListing then
        { categoryRequests := recon.requests
          modalShown := recon.modalShown
          listingSubmitted := true
          message := some (submissionMessage postResult)
          finalFormData := fd2 }
      else if method = "PUT" && hasEditListing then
        { categoryRequests := recon.requests
          modalShown := recon.modalShown
          listingSubmitted := true
          message := some (submissionMessage editResult)
          finalFormData := fd2 }
      else
        { categoryRequests := recon.requests
          modalShown := recon.modalShown
          listingSubmitted := false
          message := none
          finalFormData := fd2 }

/-- Names of the text inputs wired to handleChange in the rendered form
(the four FormItem elements). -/
inductive EditableField where
  | title
  | price
  | description
  | image
deriving DecidableEq, Repr

/-- Spread update of handleChange: { ...prevFormData, [name]: value }. -/
def setField (fd : FormData) (f : EditableField) (v : String) : FormData :=
  match f with
  | .title => { fd with title := v }
  | .price => { fd with price := v }
  | .description => { fd with description := v }
  | .image => { fd with image := v }

/-- Field projection matching the input names, for stating frame
conditions about setField. -/
def getField (fd : FormData) (f : EditableField) : String :=
  match f with
  | .title => fd.title
  | .price => fd.price
  | .description => fd.description
  | .image => fd.image

/-- Local state of the ListingForm component that the workflow reads and
writes: the draft, the user-selected categories, the fetched known
categories and the status message. (The modal state is omitted: nothing
modelled here reads it.) -/
structure ComponentState where
  formData : FormData
  selectedCategories : List Category
  categories : List Category
  message : MessageType
deriving DecidableEq, Repr

/-- Model of handleChange as a transition on the component state: it
calls setFormData with the spread update and setMessage with the empty
message, and calls no other setter. -/
def handleChange (st : ComponentState) (f : EditableField) (v : String) :
    ComponentState :=
  { st with
    formData := setField st.formData f v
    message := { message := "", color := "" } }

/-- Model of one run of handleSubmitNewCategory as a step on the
component state: it reads selectedCategories and categories, produces the
reconciler outcome, and calls no state setter (neither setCategories nor
setSelectedCategories nor setFormData nor setMessage appear in its body),
so the state is returned unchanged. -/
def reconcilerStep (st : ComponentState)
    (fetchOutcomes : Category → PromiseResult Unit) :
    ReconcilerOutcome × ComponentState :=
  (handleSubmitNewCategory st.selectedCategories st.categories fetchOutcomes, st)

/-- Ordered rule table of the Validator: for each rule in source order,
the condition under which it fails, paired with its literal message. The
image entry records the condition actually tested by the source, namely
the negated truthiness of the unawaited Promise. -/
def orderedRules (fd : FormData) (selectedCategories : List Category) :
    List (Bool × String) :=
  [ (fd.title = "" || fd.price = "" || fd.description = "" || fd.image = "",
      "Please fill in all fields"),
    (selectedCategories.length = 0, "Please select at least one category"),
    (jsNumberIsNaN fd.price, "Price must be a number"),
    (!isValidImgTruthy, "Image URL is invalid"),
    (fd.description.length < 10, "Description must be at least 10 characters"),
    (fd.description.length > 150, "Description must be less than 150 characters"),
    (fd.title != "" &&
      (match fd.title.data with
       | [] => false
       | c :: _ => c != c.toUpper), "Title must start with a capital letter"),
    (fd.title.length > 20, "Title must be less than 20 characters") ]

/-- Short-circuit evaluation of an ordered rule table: the message of the
first rule whose failure condition holds, or pass. -/
def firstFailing : List (Bool × String) → ValidationResult
  | [] => .pass
  | (b, msg) :: rest => if b then .fail msg else firstFailing rest

/-- JavaScript toLowerCase on the ASCII range, character by character. -/
def jsToLower (s : String) : String := String.mk (s.data.map Char.toLower)

/-- Modelled from the spec (Category Reconciler contract): NewCategories =
SelectedCategories whose capitalized name has no case-insensitive match in
KnownCategories. This is the claimed behaviour, written from the words of
the spec, for comparison with `newCategories` from the source. -/
def specNewCategoriesCaseInsensitive (selected known : List Category) :
    List Category :=
  selected.filter (fun category =>
    !(known.any (fun c => jsToLower c.name = jsToLower (capitalize category.name))))

/-- Modelled from the spec (Validator rule list): the same rule chain as
validateRules, but with rule 4 actually deciding image validity; the
parameter `imgOk` stands for the resolved outcome of the asynchronous
image probe on the image string of the draft. Written from the words of
the spec, for comparison with `validateRules` from the source. -/
def specValidateRules (fd : FormData) (selectedCategories : List Category)
    (imgOk : Bool) : ValidationResult :=
  if fd.title = "" || fd.price = "" || fd.description = "" || fd.image = "" then
    .fail "Please fill in all fields"
  else if selectedCategories.length = 0 then
    .fail "Please select at least one category"
  else if jsNumberIsNaN fd.price then
    .fail "Price must be a number"
  else if !imgOk then
    .fail "Image URL is invalid"
  else if fd.description.length < 10 then
    .fail "Description must be at least 10 characters"
  else if fd.description.length > 150 then
    .fail "Description must be less than 150 characters"
  else if fd.title != "" &&
      (match fd.title.data with
       | [] => false
       | c :: _ => c != c.toUpper) then
    .fail "Title must start with a capital letter"
  else if fd.title.length > 20 then
    .fail "Title must be less than 20 characters"
  else
    .pass

/-- Draft fixture that passes every rule: capitalized short title, numeric
price, description of length between 10 and 150, non-empty image. -/
def sampleDraft : FormData :=
  { title := "Bike"
    price := "42"
    description := "A nice red bike"
    image := "https://example.com/image.jpg"
    owner := "owner1"
    categories := [] }

/-- Fixture: a selected category whose name is lowercase. -/
def toolsCat : Category := { category_id := "1", name := "tools" }

/-- Fixture: a selected category with no counterpart among the known
categories. -/
def gardenCat : Category := { category_id := "2", name := "Garden" }

/-- Fixture: the known category named Tools. -/
def knownTools : Category := { category_id := "9", name := "Tools" }

/-- Fixture: a known category whose name is fully uppercase. -/
def shoutingTools : Category := { category_id := "9", name := "TOOLS" }

/-- Fixture: every category-creation fetch succeeds. -/
def allResolve : Category → PromiseResult Unit := fun _ => .resolved ()

/-- Fixture: a draft whose image string is not a URL at all, with every
other field passing its rule. -/
def badImageDraft : FormData := { sampleDraft with image := ":::not a url:::" }

end ListingForm

namespace ListingForm

/-- Helper: Char.toUpper is the identity away from lowercase ASCII. -/
theorem toUpper_eq_self_of_not_lower (c : Char) (h : c.isLower = false) :
    c.toUpper = c := by
  unfold Char.toUpper
  rw [if_neg]
  simp only [Char.isLower, Bool.and_eq_false_iff, decide_eq_false_iff_not, not_le] at h
  rintro ⟨h1, h2⟩
  simp only [Char.toNat] at h1 h2
  rcases h with h | h
  · exact absurd (UInt32.le_toNat_of_le (by decide) h1) h
  · apply h
    rw [UInt32.le_def, BitVec.le_def]
    exact h2

/-- Helper: postCategory always resolves. -/
theorem postCategory_resolves (o : PromiseResult Unit) :
    postCategory o = .resolved () := by
  cases o <;> rfl

/-- Helper: the Promise.all over the postCategory calls always resolves. -/
theorem promiseAll_map_postCategory (cs : List Category)
    (fetchOutcomes : Category → PromiseResult Unit) :
    promiseAll (cs.map (fun c => postCategory (fetchOutcomes c))) =
      .resolved (cs.map (fun _ => ())) := by
  induction cs with
  | nil => rfl
  | cons hd tl ih =>
      simp only [List.map_cons, postCategory_resolves, promiseAll] at ih ⊢
      rw [ih]

/-- Helper: the creation requests issued by handleSubmitNewCategory are
exactly the newCategories of its two inputs, for any fetch outcomes. -/
theorem requests_eq_newCategories (selected known : List Category)
    (fetchOutcomes : Category → PromiseResult Unit) :
    (handleSubmitNewCategory selected known fetchOutcomes).requests =
      newCategories selected known := by
  unfold handleSubmitNewCategory
  by_cases h : (newCategories selected known).length = 0
  · simp only [h, if_pos rfl]
    exact (List.length_eq_zero.mp h).symm
  · simp only [if_neg h, promiseAll_map_postCategory]

/-- Helper: firstFailing yields pass exactly when no rule fails. -/
theorem firstFailing_eq_pass_iff (l : List (Bool × String)) :
    firstFailing l = .pass ↔ l.all (fun r => !r.1) := by
  induction l with
  | nil => simp [firstFailing]
  | cons hd tl ih =>
      obtain ⟨b, m⟩ := hd
      cases b <;> simp [firstFailing, ih]

/-- C1: counterexample to the claim that a submit attempt with a failing
rule issues no network call. With an empty title (rule 1 fails) and one
selected category unknown to the backend, validateForm sets the rule
message, yet a category-creation request is issued, because
handleSubmitNewCategory runs before the rules. -/
theorem C1_counterexample :
    validateRules { sampleDraft with title := "" } [toolsCat] =
        .fail "Please fill in all fields" ∧
    (validateForm { sampleDraft with title := "" } [toolsCat] [] allResolve
        "POST" true false (.resolved (true, "ok"))
        (.resolved (true, "ok"))).message =
      some { message := "Please fill in all fields", color := "red" } ∧
    (validateForm { sampleDraft with title := "" } [toolsCat] [] allResolve
        "POST" true false (.resolved (true, "ok"))
        (.resolved (true, "ok"))).categoryRequests ≠ [] := by
  refine ⟨rfl, rfl, ?_⟩
  decide

/-- C1 amended: on any failing rule the attempt goes directly to Failed
with that rule message and the listing submission is not issued, and the
draft is untouched; however the category-creation requests of the
reconciler are issued before validation, not suppressed by the failure. -/
theorem C1_amended (fd : FormData) (sel known : List Category)
    (fetchOutcomes : Category → PromiseResult Unit) (method : String)
    (hp he : Bool) (pr er : PromiseResult (Bool × String)) (msg : String)
    (h : validateRules fd sel = .fail msg) :
    (validateForm fd sel known fetchOutcomes method hp he pr er).listingSubmitted
        = false ∧
    (validateForm fd sel known fetchOutcomes method hp he pr er).message =
      some { message := msg, color := "red" } ∧
    (validateForm fd sel known fetchOutcomes method hp he pr er).categoryRequests
        = newCategories sel known ∧
    (validateForm fd sel known fetchOutcomes method hp he pr er).finalFormData
        = fd := by
  unfold validateForm
  rw [h]
  exact ⟨rfl, rfl, requests_eq_newCategories sel known fetchOutcomes, rfl⟩

/-- C1 witness: the amended theorem applied at the concrete failing
draft. -/
theorem C1_witness :
    validateRules { sampleDraft with title := "" } [toolsCat] =
        .fail "Please fill in all fields" ∧
    (validateForm { sampleDraft with title := "" } [toolsCat] [] allResolve
        "POST" true false (.resolved (true, "ok"))
        (.resolved (true, "ok"))).listingSubmitted = false :=
  ⟨rfl,
    (C1_amended { sampleDraft with title := "" } [toolsCat] [] allResolve
      "POST" true false (.resolved (true, "ok")) (.resolved (true, "ok"))
      "Please fill in all fields" rfl).1⟩

/-- C2: counterexample to the case-insensitive matching claim. With
KnownCategories = [TOOLS] and SelectedCategories = [tools], the
capitalized name Tools has a case-insensitive match in the known set, so
the claim predicts no creation request; the source compares capitalized
names for exact equality and issues a creation request for tools. -/
theorem C2_counterexample :
    (handleSubmitNewCategory [toolsCat] [shoutingTools] allResolve).requests =
        [toolsCat] ∧
    specNewCategoriesCaseInsensitive [toolsCat] [shoutingTools] = [] := by
  exact ⟨rfl, rfl⟩

/-- C2 amended: the reconciler issues creation requests for exactly those
selected categories whose first-letter-capitalized name has no exact
(case-sensitive) match among the known category names; on the Tools and
Garden instance the outcome claimed by the spec still holds, with exactly
one request, for Garden. -/
theorem C2_amended :
    (∀ (selected known : List Category)
        (fetchOutcomes : Category → PromiseResult Unit),
      (handleSubmitNewCategory selected known fetchOutcomes).requests =
        newCategories selected known) ∧
    (handleSubmitNewCategory [toolsCat, gardenCat] [knownTools]
        allResolve).requests = [gardenCat] := by
  exact ⟨requests_eq_newCategories, rfl⟩

/-- C3: the image rule is dead code. The source reads the async
isValidImageUrl without awaiting it, so the guard tests the truthiness of
a Promise object and the rule never fails: no draft ever produces the
message Image URL is invalid, and a draft whose image is not a URL at all
passes validation and has its listing submission issued. -/
theorem C3_image_rule_never_fails :
    (∀ (fd : FormData) (sel : List Category),
      validateRules fd sel ≠ .fail "Image URL is invalid") ∧
    validateRules badImageDraft [knownTools] = .pass ∧
    (validateForm badImageDraft [knownTools] [knownTools] allResolve "POST"
        true false (.resolved (true, "Created"))
        (.resolved (true, "ok"))).listingSubmitted = true := by
  refine ⟨?_, rfl, rfl⟩
  intro fd sel
  unfold validateRules
  split_ifs <;> first | decide | simp_all [isValidImgTruthy]

/-- C3 witness: the theorem applied at the concrete malformed-image
draft. -/
theorem C3_witness :
    validateRules badImageDraft [knownTools] ≠ .fail "Image URL is invalid" :=
  C3_image_rule_never_fails.1 badImageDraft [knownTools]

/-- C4: counterexample to the claim that the Validator outputs pass only
when every rule holds, rule 4 being image validity. At a draft whose
image probe resolves false (a malformed URL), the rule list of the claim
fails at rule 4 with the image message, yet the source validator outputs
pass. -/
theorem C4_counterexample :
    specValidateRules badImageDraft [knownTools] false =
        .fail "Image URL is invalid" ∧
    validateRules badImageDraft [knownTools] = .pass := by
  exact ⟨rfl, rfl⟩

/-- C4 amended: the Validator is a total function of the draft and the
selected categories, evaluating the rules in the fixed source order with
short-circuit on the first failing rule and the literal message of that rule,
except that the image rule can never fail (its guard tests the truthiness
of an unawaited Promise); it outputs pass exactly when all the remaining
rules hold. No state is carried between attempts: the output is a
function of the two inputs alone. -/
theorem C4_amended (fd : FormData) (sel : List Category) :
    validateRules fd sel = firstFailing (orderedRules fd sel) ∧
    (validateRules fd sel = .pass ↔ (orderedRules fd sel).all (fun r => !r.1)) := by
  have h : validateRules fd sel = firstFailing (orderedRules fd sel) := by
    simp only [validateRules, orderedRules, firstFailing, decide_eq_true_eq]
  exact ⟨h, h ▸ firstFailing_eq_pass_iff (orderedRules fd sel)⟩

/-- C5: when validation passes, the status message is settled from the
injected collaborator exactly as claimed: a resolution with success true
and message m gives (m, green), the success kind; a resolution with
success false gives (m, red), the error kind; a rejection gives the
generic fallback text with the error kind. The POST method attempt with
postListing injected uses postListing, the PUT method attempt with
editListing injected uses editListing. -/
theorem C5_submission_status (fd : FormData) (sel known : List Category)
    (fetchOutcomes : Category → PromiseResult Unit) (hp he : Bool)
    (pr er : PromiseResult (Bool × String))
    (h : validateRules fd sel = .pass) :
    (validateForm fd sel known fetchOutcomes "POST" true he pr er).message =
      some (submissionMessage pr) ∧
    (validateForm fd sel known fetchOutcomes "PUT" hp true pr er).message =
      some (submissionMessage er) ∧
    (∀ m, submissionMessage (.resolved (true, m)) =
      { message := m, color := "green" }) ∧
    (∀ m, submissionMessage (.resolved (false, m)) =
      { message := m, color := "red" }) ∧
    (∀ e, submissionMessage (.rejected e) =
      { message := "An unexpected error has occurred", color := "red" }) := by
  refine ⟨?_, ?_, fun m => rfl, fun m => rfl, fun e => rfl⟩
  · unfold validateForm
    rw [h]
    rfl
  · unfold validateForm
    rw [h]
    rfl

/-- C5 witness: the theorem applied at a concrete passing draft with a
successful backend resolution. -/
theorem C5_witness :
    validateRules sampleDraft [knownTools] = .pass ∧
    (validateForm sampleDraft [knownTools] [knownTools] allResolve "POST" true
        false (.resolved (true, "Created")) (.resolved (true, "ok"))).message =
      some { message := "Created", color := "green" } :=
  ⟨rfl,
    (C5_submission_status sampleDraft [knownTools] [knownTools] allResolve
      false false (.resolved (true, "Created")) (.resolved (true, "ok")) rfl).1⟩

/-- C6: counterexample to the claim that every attempt ending in Failed
leaves the draft unmodified. A valid draft whose backend rejects the
submission ends with the rejection message, yet its categories field has
been overwritten with the selected categories. -/
theorem C6_counterexample :
    (validateForm sampleDraft [knownTools] [knownTools] allResolve "POST" true
        false (.resolved (false, "Server rejected"))
        (.resolved (true, "ok"))).message =
      some { message := "Server rejected", color := "red" } ∧
    (validateForm sampleDraft [knownTools] [knownTools] allResolve "POST" true
        false (.resolved (false, "Server rejected"))
        (.resolved (true, "ok"))).finalFormData.categories ≠
      sampleDraft.categories := by
  refine ⟨rfl, ?_⟩
  decide

/-- C6 amended: when a validation rule fails the draft is left fully
unmodified; when validation passes and the attempt then fails at the
backend, every field except categories is unmodified, the categories
field having been overwritten with the selected categories before the
submission was issued. -/
theorem C6_amended (fd : FormData) (sel known : List Category)
    (fetchOutcomes : Category → PromiseResult Unit) (method : String)
    (hp he : Bool) (pr er : PromiseResult (Bool × String)) :
    (∀ msg, validateRules fd sel = .fail msg →
      (validateForm fd sel known fetchOutcomes method hp he pr er).finalFormData
        = fd) ∧
    (validateRules fd sel = .pass →
      (validateForm fd sel known fetchOutcomes method hp he pr er).finalFormData
        = { fd with categories := sel }) := by
  constructor
  · intro msg h
    unfold validateForm
    rw [h]
  · intro h
    unfold validateForm
    rw [h]
    split_ifs <;> rfl

/-- C6 witness: the amended theorem applied at a concrete failing-rule
attempt and at a concrete backend-rejected attempt. -/
theorem C6_witness :
    validateRules { sampleDraft with title := "" } [toolsCat] =
        .fail "Please fill in all fields" ∧
    (validateForm { sampleDraft with title := "" } [toolsCat] [] allResolve
        "POST" true false (.resolved (true, "ok"))
        (.resolved (true, "ok"))).finalFormData =
      { sampleDraft with title := "" } ∧
    validateRules sampleDraft [knownTools] = .pass ∧
    (validateForm sampleDraft [knownTools] [knownTools] allResolve "POST" true
        false (.resolved (false, "Server rejected"))
        (.resolved (true, "ok"))).finalFormData =
      { sampleDraft with categories := [knownTools] } :=
  ⟨rfl,
    (C6_amended { sampleDraft with title := "" } [toolsCat] [] allResolve
      "POST" true false (.resolved (true, "ok")) (.resolved (true, "ok"))).1
      "Please fill in all fields" rfl,
    rfl,
    (C6_amended sampleDraft [knownTools] [knownTools] allResolve "POST" true
      false (.resolved (false, "Server rejected")) (.resolved (true, "ok"))).2
      rfl⟩

/-- C7: handleChange updates exactly the named draft field to the event
value, leaves the other draft fields, the owner, the draft categories,
the selected categories and the known categories unchanged, and resets
the status message to the empty message. -/
theorem C7_handleChange (st : ComponentState) (f : EditableField) (v : String) :
    getField (handleChange st f v).formData f = v ∧
    (∀ g, g ≠ f →
      getField (handleChange st f v).formData g = getField st.formData g) ∧
    (handleChange st f v).formData.owner = st.formData.owner ∧
    (handleChange st f v).formData.categories = st.formData.categories ∧
    (handleChange st f v).selectedCategories = st.selectedCategories ∧
    (handleChange st f v).categories = st.categories ∧
    (handleChange st f v).message = { message := "", color := "" } := by
  refine ⟨?_, ?_, ?_, ?_, rfl, rfl, rfl⟩
  · cases f <;> rfl
  · intro g hg
    cases f <;> cases g <;> first | rfl | exact absurd rfl hg
  · cases f <;> rfl
  · cases f <;> rfl

/-- C7 witness: the theorem applied at a concrete state for an edit of
the title, reading back the untouched price field and the reset
message. -/
theorem C7_witness :
    EditableField.price ≠ EditableField.title ∧
    getField (handleChange
        { formData := sampleDraft
          selectedCategories := [knownTools]
          categories := [knownTools]
          message := { message := "old", color := "red" } }
        .title "Trike").formData .price = "42" ∧
    (handleChange
        { formData := sampleDraft
          selectedCategories := [knownTools]
          categories := [knownTools]
          message := { message := "old", color := "red" } }
        .title "Trike").message = { message := "", color := "" } :=
  ⟨by decide,
    (C7_handleChange
      { formData := sampleDraft
        selectedCategories := [knownTools]
        categories := [knownTools]
        message := { message := "old", color := "red" } }
      .title "Trike").2.1 .price (by decide),
    (C7_handleChange
      { formData := sampleDraft
        selectedCategories := [knownTools]
        categories := [knownTools]
        message := { message := "old", color := "red" } }
      .title "Trike").2.2.2.2.2.2⟩

/-- C8: a reconciler run leaves the component state it reads unchanged
(handleSubmitNewCategory calls no state setter), so a second run with no
intervening state change produces the identical outcome, and the issued
creation set is a deterministic function of the selected and known
categories alone. -/
theorem C8_reconciler_idempotent (st : ComponentState)
    (fetchOutcomes : Category → PromiseResult Unit) :
    (reconcilerStep st fetchOutcomes).2 = st ∧
    (reconcilerStep (reconcilerStep st fetchOutcomes).2 fetchOutcomes).1 =
      (reconcilerStep st fetchOutcomes).1 ∧
    (reconcilerStep st fetchOutcomes).1.requests =
      newCategories st.selectedCategories st.categories := by
  exact ⟨rfl, rfl, requests_eq_newCategories st.selectedCategories st.categories
    fetchOutcomes⟩

/-- C9: an individual category-creation failure can never surface:
postCategory always resolves whatever its fetch does, hence the
Promise.all barrier never rejects and the failure modal branch of
handleSubmitNewCategory is unreachable, for every choice of per-request
fetch outcomes. -/
theorem C9_category_failures_never_surface :
    (∀ o, postCategory o = .resolved ()) ∧
    (∀ (selected known : List Category)
        (fetchOutcomes : Category → PromiseResult Unit),
      (handleSubmitNewCategory selected known fetchOutcomes).modalShown = false) := by
  refine ⟨postCategory_resolves, ?_⟩
  intro selected known fetchOutcomes
  unfold handleSubmitNewCategory
  by_cases h : (newCategories selected known).length = 0
  · simp [h]
  · simp [h, promiseAll_map_postCategory]

/-- C10: when the first character of the title is an ASCII character with
no uppercase form distinct from itself (a digit, a space, or a symbol:
any ASCII non-letter), the capitalization rule passes, because the check
compares the character with its toUpperCase image and they are equal; the
validator therefore never reports the capitalization message for such a
title. -/
theorem C10_caseless_first_char (fd : FormData) (sel : List Category)
    (c : Char) (rest : List Char) (ht : fd.title.data = c :: rest)
    (_hA : c.toNat < 128) (hc : c.isAlpha = false) :
    validateRules fd sel ≠ .fail "Title must start with a capital letter" := by
  have hlow : c.isLower = false := by
    simp only [Char.isAlpha, Bool.or_eq_false_iff] at hc
    exact hc.2
  have hup : c.toUpper = c := toUpper_eq_self_of_not_lower c hlow
  unfold validateRules
  rw [ht]
  simp only [hup, bne_self_eq_false, Bool.and_false]
  split_ifs <;> first | decide | simp_all

/-- C10 witness: the theorem applied at a concrete title starting with a
digit. -/
theorem C10_witness :
    ({ sampleDraft with title := "3rd hand bike" } : FormData).title.data =
        '3' :: "rd hand bike".data ∧
    Char.toNat '3' < 128 ∧
    Char.isAlpha '3' = false ∧
    validateRules { sampleDraft with title := "3rd hand bike" } [knownTools] ≠
      .fail "Title must start with a capital letter" :=
  ⟨rfl, by decide, by decide,
    C10_caseless_first_char { sampleDraft with title := "3rd hand bike" }
      [knownTools] '3' "rd hand bike".data rfl (by decide) (by decide)⟩

end ListingForm
